import Mathlib

/-!
Verification of the PDF summarizer web application (`app.py`).

The application is a Flask app wrapping one third-party PDF text extractor
(PyPDF2) and one remote summarization API (OpenAI) behind an upload form,
with a single-table SQLite cache keyed by the SHA-256 hash of the extracted
text.  We embed the request handler, the cache logic and the fingerprint
function as pure Lean functions; the two external collaborators (the text
extractor and the remote summarization service) are passed in as oracles,
and the handler records which requests it sends to them so that
"the extractor/summarizer is (not) invoked" becomes a provable statement.
-/

/-- A chat message, one entry of the `messages` list sent to the remote
service by `openai_summarization` (app.py lines 64-67). -/
structure ChatMessage where
  role : String
  content : String
deriving DecidableEq, Repr

/-- The full request `openai_summarization` builds for
`openai.ChatCompletion.create` (app.py lines 62-71): model name, the
two-turn message list, sampling temperature, stop sequence and timeout. -/
structure ChatRequest where
  model : String
  messages : List ChatMessage
  temperature : ℚ
  stop : Option String
  timeout : ℕ
deriving DecidableEq, Repr

/-- Outcome of one call to the remote summarization service (the external
collaborator, modelled as an oracle): a summary text, a timeout, or any
other remote failure, each failure carrying its internal detail string. -/
inductive ApiOutcome where
  | ok (summary : String)
  | timeout (detail : String)
  | failure (detail : String)
deriving DecidableEq, Repr

/-- The Python exception values that flow through the app, tagged by the
exception class the code distinguishes (`TimeoutError`, `sqlite3.Error`,
`ValueError`, the raw API exception, and a plain `Exception`), each with
its message (what `str(e)` yields). -/
inductive PyError where
  | timeoutError (msg : String)
  | sqliteError (msg : String)
  | valueError (msg : String)
  | apiError (msg : String)
  | genericError (msg : String)
deriving DecidableEq, Repr

/-- `str(e)`: the message of an exception, as rendered to the user by
`render_template("upload.html", error=str(e))`. -/
def PyError.str : PyError → String
  | .timeoutError m => m
  | .sqliteError m => m
  | .valueError m => m
  | .apiError m => m
  | .genericError m => m

/-- The `summaries` table: a list of `(pdf_hash, summary)` rows, in
insertion order. -/
abbrev Store := List (String × String)

/-- `SELECT summary FROM summaries WHERE pdf_hash=? ... fetchone()`
(app.py lines 82-83): the summary of the first row with the given hash,
or `none`. -/
def lookupSummary (store : Store) (pdf_hash : String) : Option String :=
  (store.find? (fun r => r.1 == pdf_hash)).map Prod.snd

/-- Modelled from the spec: `schema.sql` is not among the sources; §6 of the
spec gives the persisted layout as one table with schema
`(pdf_hash TEXT PRIMARY KEY/UNIQUE, summary TEXT)`, so an
`INSERT INTO summaries (pdf_hash, summary) VALUES (?, ?)` of a fingerprint
that already has a row fails with an integrity error (a `sqlite3.Error`)
instead of writing a second row. -/
def insertSummary (store : Store) (pdf_hash summary : String) : Except PyError Store :=
  if store.any (fun r => r.1 == pdf_hash) then
    .error (.sqliteError "UNIQUE constraint failed: summaries.pdf_hash")
  else
    .ok (store ++ [(pdf_hash, summary)])

/-- `SELECT COUNT(*) FROM summaries WHERE pdf_hash=?` (test_app.py line
110): the number of rows carrying a given fingerprint. -/
def countKey (store : Store) (pdf_hash : String) : ℕ :=
  (store.filter (fun r => r.1 == pdf_hash)).length

/-- `extract_text_from_pdf` (app.py lines 40-58).  The PyPDF2 reader loop is
the external collaborator: its behavior on this particular byte stream is
given as `extractResult` (the concatenated page texts, or the raised
exception's detail).  Any exception is caught and replaced by
`ValueError("An error occurred while reading the PDF.")`. -/
def extract_text_from_pdf (extractResult : Except String String) : Except PyError String :=
  match extractResult with
  | .ok t => .ok t
  | .error _ => .error (.valueError "An error occurred while reading the PDF.")

/-- The request built by `openai_summarization` for a given text
(app.py lines 62-71). -/
def mkRequest (text : String) : ChatRequest :=
  { model := "gpt-3.5-turbo"
    messages :=
      [ { role := "system"
          content := "You are a helpful assistant that provides summaries." },
        { role := "user"
          content := "Provide a detailed summary of the following text:\n" ++ text } ]
    temperature := 0.5
    stop := none
    timeout := 30 }

/-- `openai_summarization` (app.py lines 60-75): build the request, send it
once (no retries), and either return the summary text or let the library
exception propagate (a timeout or any other remote failure).  The second
component records the requests actually sent to the remote service. -/
def openai_summarization (api : ChatRequest → ApiOutcome) (text : String) :
    Except PyError String × List ChatRequest :=
  match api (mkRequest text) with
  | .ok s => (.ok s, [mkRequest text])
  | .timeout d => (.error (.timeoutError d), [mkRequest text])
  | .failure d => (.error (.apiError d), [mkRequest text])

/-- The `try:` block of `retrieve_summary` (app.py lines 79-92), with the
two store accesses taking separate snapshots: `storeAtLookup` is the table
the `SELECT` sees and `storeAtInsert` the table the `INSERT` sees.  In a
sequential run the two coincide (`retrieve_summary` below); letting them
differ expresses a concurrent request committing a row between the lookup
and the insert. -/
def retrieve_summary_body (api : ChatRequest → ApiOutcome) (text pdf_hash : String)
    (storeAtLookup storeAtInsert : Store) :
    Except PyError String × Store × List ChatRequest :=
  match lookupSummary storeAtLookup pdf_hash with
  | some s => (.ok s, storeAtInsert, [])
  | none =>
    match openai_summarization api text with
    | (.ok s, reqs) =>
      match insertSummary storeAtInsert pdf_hash s with
      | .ok store2 => (.ok s, store2, reqs)
      | .error e => (.error e, storeAtInsert, reqs)
    | (.error e, reqs) => (.error e, storeAtInsert, reqs)

/-- The `except` clauses of `retrieve_summary` (app.py lines 94-107): a
`TimeoutError` is re-raised with a fixed "try again later" message, a
`sqlite3.Error` with a fixed database message, and any other exception as a
plain `Exception` with a fixed generic message.  In every case the internal
detail string is dropped (it is only logged). -/
def handle_errors (r : Except PyError String) : Except PyError String :=
  match r with
  | .ok s => .ok s
  | .error (.timeoutError _) =>
    .error (.timeoutError "The summarization process timed out. Please try again later.")
  | .error (.sqliteError _) =>
    .error (.sqliteError "An error occurred with the database.")
  | .error _ =>
    .error (.genericError "An error occured while retrieving the summary.")

/-- `retrieve_summary` (app.py lines 77-109) with separate lookup-time and
insert-time store snapshots (see `retrieve_summary_body`). -/
def retrieve_summary_at (api : ChatRequest → ApiOutcome) (text pdf_hash : String)
    (storeAtLookup storeAtInsert : Store) :
    Except PyError String × Store × List ChatRequest :=
  match retrieve_summary_body api text pdf_hash storeAtLookup storeAtInsert with
  | (r, store2, reqs) => (handle_errors r, store2, reqs)

/-- `retrieve_summary` (app.py lines 77-109) in a sequential run: the lookup
and the insert see the same table. -/
def retrieve_summary (api : ChatRequest → ApiOutcome) (text pdf_hash : String)
    (store : Store) : Except PyError String × Store × List ChatRequest :=
  retrieve_summary_at api text pdf_hash store store

/-- What `upload_file` renders back to the browser: the upload form
(optionally with an error message), or the summary page. -/
inductive Response where
  | uploadForm (error : Option String)
  | summaryPage (summary : String)
deriving DecidableEq, Repr

/-- An uploaded file as `upload_file` sees it: the declared filename, and
the behavior of the PyPDF2 extractor on its byte stream (the external
collaborator's answer for this content). -/
structure UploadedFile where
  filename : String
  extractResult : Except String String
deriving Repr

/-- The observable outcome of one `POST /upload` request: the rendered
response, the table after the request, whether the extractor was invoked,
and the requests sent to the remote summarization service. -/
structure HandlerResult where
  response : Response
  store : Store
  extractorCalled : Bool
  requests : List ChatRequest
deriving DecidableEq, Repr

/-! ### The fingerprint: `hashlib.sha256(text.encode()).hexdigest()`

`upload_file` keys the cache by the SHA-256 digest of the UTF-8 encoding of
the extracted text (app.py line 131).  We embed SHA-256 (FIPS 180-4) as a
pure function on byte lists, bytes being naturals below 256. -/

/-- Truncation to a 32-bit word. -/
def w32 (n : ℕ) : ℕ := n % 4294967296

/-- Right rotation of a 32-bit word by `n` places. -/
def rotr32 (n x : ℕ) : ℕ := x / 2 ^ n + x % 2 ^ n * 2 ^ (32 - n)

/-- Logical right shift. -/
def shr32 (n x : ℕ) : ℕ := x / 2 ^ n

/-- Bitwise complement of a 32-bit word. -/
def bnot32 (x : ℕ) : ℕ := 4294967295 - x

/-- SHA-256 Ch function. -/
def shaCh (x y z : ℕ) : ℕ := (x &&& y) ^^^ (bnot32 x &&& z)

/-- SHA-256 Maj function. -/
def shaMaj (x y z : ℕ) : ℕ := (x &&& y) ^^^ (x &&& z) ^^^ (y &&& z)

/-- SHA-256 Σ₀. -/
def bsig0 (x : ℕ) : ℕ := rotr32 2 x ^^^ rotr32 13 x ^^^ rotr32 22 x

/-- SHA-256 Σ₁. -/
def bsig1 (x : ℕ) : ℕ := rotr32 6 x ^^^ rotr32 11 x ^^^ rotr32 25 x

/-- SHA-256 σ₀. -/
def ssig0 (x : ℕ) : ℕ := rotr32 7 x ^^^ rotr32 18 x ^^^ shr32 3 x

/-- SHA-256 σ₁. -/
def ssig1 (x : ℕ) : ℕ := rotr32 17 x ^^^ rotr32 19 x ^^^ shr32 10 x

/-- The 64 SHA-256 round constants. -/
def shaK : List ℕ :=
  [1116352408, 1899447441, 3049323471, 3921009573, 961987163, 1508970993,
   2453635748, 2870763221, 3624381080, 310598401, 607225278, 1426881987,
   1925078388, 2162078206, 2614888103, 3248222580, 3835390401, 4022224774,
   264347078, 604807628, 770255983, 1249150122, 1555081692, 1996064986,
   2554220882, 2821834349, 2952996808, 3210313671, 3336571891, 3584528711,
   113926993, 338241895, 666307205, 773529912, 1294757372, 1396182291,
   1695183700, 1986661051, 2177026350, 2456956037, 2730485921, 2820302411,
   3259730800, 3345764771, 3516065817, 3600352804, 4094571909, 275423344,
   430227734, 506948616, 659060556, 883997877, 958139571, 1322822218,
   1537002063, 1747873779, 1955562222, 2024104815, 2227730452, 2361852424,
   2428436474, 2756734187, 3204031479, 3329325298]

/-- The eight 32-bit words of a SHA-256 hash state. -/
structure Hash8 where
  a : ℕ
  b : ℕ
  c : ℕ
  d : ℕ
  e : ℕ
  f : ℕ
  g : ℕ
  h : ℕ
deriving DecidableEq, Repr

/-- The SHA-256 initial hash value. -/
def shaInit : Hash8 :=
  { a := 1779033703, b := 3144134277, c := 1013904242, d := 2773480762,
    e := 1359893119, f := 2600822924, g := 528734635, h := 1541459225 }

/-- `k`-byte big-endian rendering of a natural number. -/
def toBE (k n : ℕ) : List ℕ :=
  (List.range k).map (fun i => n / 2 ^ (8 * (k - 1 - i)) % 256)

/-- SHA-256 padding: append `0x80`, zeros up to 56 mod 64 bytes, then the
bit length as an 8-byte big-endian number. -/
def padMessage (msg : List ℕ) : List ℕ :=
  msg ++ [128] ++ List.replicate ((120 - (msg.length + 1) % 64) % 64) 0
      ++ toBE 8 (8 * msg.length)

/-- Split a byte list into 64-byte chunks, with a structural fuel argument
so that the function reduces definitionally (the fuel in `chunks64` always
suffices, as each step consumes at least one byte). -/
def chunksGo : ℕ → List ℕ → List (List ℕ)
  | 0, _ => []
  | _, [] => []
  | n + 1, b :: rest => (b :: rest).take 64 :: chunksGo n (List.drop 63 rest)

/-- Split a byte list into 64-byte chunks. -/
def chunks64 (l : List ℕ) : List (List ℕ) := chunksGo l.length l

/-- Combine bytes into 32-bit big-endian words. -/
def bytesToWords : List ℕ → List ℕ
  | b0 :: b1 :: b2 :: b3 :: rest =>
    (b0 * 16777216 + b1 * 65536 + b2 * 256 + b3) :: bytesToWords rest
  | _ => []

/-- One step of the message-schedule extension: append
`σ₁(w[t-2]) + w[t-7] + σ₀(w[t-15]) + w[t-16]` mod 2³². -/
def scheduleStep (ws : List ℕ) : List ℕ :=
  ws ++ [w32 (ssig1 (ws.getD (ws.length - 2) 0) + ws.getD (ws.length - 7) 0
      + ssig0 (ws.getD (ws.length - 15) 0) + ws.getD (ws.length - 16) 0)]

/-- Iterate the message-schedule extension `n` times. -/
def extendSchedule (ws : List ℕ) : ℕ → List ℕ
  | 0 => ws
  | n + 1 => extendSchedule (scheduleStep ws) n

/-- One SHA-256 compression round, consuming a `(k, w)` pair. -/
def compressStep (st : Hash8) (kw : ℕ × ℕ) : Hash8 :=
  let t1 := w32 (st.h + bsig1 st.e + shaCh st.e st.f st.g + kw.1 + kw.2)
  let t2 := w32 (bsig0 st.a + shaMaj st.a st.b st.c)
  { a := w32 (t1 + t2), b := st.a, c := st.b, d := st.c,
    e := w32 (st.d + t1), f := st.e, g := st.f, h := st.g }

/-- Process one 64-byte chunk: build the 64-entry schedule, run the 64
compression rounds and add the result into the running hash. -/
def processChunk (st : Hash8) (chunk : List ℕ) : Hash8 :=
  let ws := extendSchedule (bytesToWords chunk) 48
  let r := (shaK.zip ws).foldl compressStep st
  { a := w32 (st.a + r.a), b := w32 (st.b + r.b), c := w32 (st.c + r.c),
    d := w32 (st.d + r.d), e := w32 (st.e + r.e), f := w32 (st.f + r.f),
    g := w32 (st.g + r.g), h := w32 (st.h + r.h) }

/-- SHA-256 of a byte list, as the 32 bytes of the digest. -/
def sha256Bytes (msg : List ℕ) : List ℕ :=
  let fin := (chunks64 (padMessage msg)).foldl processChunk shaInit
  toBE 4 fin.a ++ toBE 4 fin.b ++ toBE 4 fin.c ++ toBE 4 fin.d
    ++ toBE 4 fin.e ++ toBE 4 fin.f ++ toBE 4 fin.g ++ toBE 4 fin.h

/-- Lowercase hexadecimal digit for a value below 16. -/
def hexChar (n : ℕ) : Char :=
  if n < 10 then Char.ofNat (48 + n) else Char.ofNat (87 + n)

/-- Two lowercase hexadecimal digits of one byte. -/
def byteHex (b : ℕ) : List Char := [hexChar (b / 16), hexChar (b % 16)]

/-- `.hexdigest()`: the byte list rendered as a lowercase hexadecimal
string. -/
def hexdigest (bytes : List ℕ) : String := String.mk ((bytes.map byteHex).flatten)

/-- UTF-8 encoding of one code point (what Python's `str.encode()` does
character by character). -/
def utf8Bytes (c : ℕ) : List ℕ :=
  if c < 128 then [c]
  else if c < 2048 then [192 + c / 64, 128 + c % 64]
  else if c < 65536 then [224 + c / 4096, 128 + c / 64 % 64, 128 + c % 64]
  else [240 + c / 262144, 128 + c / 4096 % 64, 128 + c / 64 % 64, 128 + c % 64]

/-- `text.encode()`: the UTF-8 bytes of a string. -/
def strBytes (s : String) : List ℕ := (s.data.map (fun c => utf8Bytes c.toNat)).flatten

/-- The cache key of app.py line 131:
`hashlib.sha256(text.encode()).hexdigest()`. -/
def fingerprint (text : String) : String := hexdigest (sha256Bytes (strBytes text))

/-- `upload_file` (app.py lines 119-138): reject when the filename is empty
or lacks the `.pdf` suffix; otherwise extract the text, fingerprint it, and
retrieve or generate the summary, rendering any caught exception's message
into the upload form. -/
def upload_file (api : ChatRequest → ApiOutcome) (file : UploadedFile)
    (store : Store) : HandlerResult :=
  if file.filename == "" || !(List.isSuffixOf ".pdf".data file.filename.data) then
    { response := .uploadForm (some "Please ensure that the uploaded file is in PDF format."),
      store := store, extractorCalled := false, requests := [] }
  else
    match extract_text_from_pdf file.extractResult with
    | .error e =>
      { response := .uploadForm (some e.str), store := store,
        extractorCalled := true, requests := [] }
    | .ok text =>
      match retrieve_summary api text (fingerprint text) store with
      | (.ok s, store2, reqs) =>
        { response := .summaryPage s, store := store2,
          extractorCalled := true, requests := reqs }
      | (.error e, store2, reqs) =>
        { response := .uploadForm (some e.str), store := store2,
          extractorCalled := true, requests := reqs }

/-! ### Store lemmas -/

/-- Unfolding of the lookup on a nonempty table. -/
theorem lookupSummary_cons (r : String × String) (rest : Store) (k : String) :
    lookupSummary (r :: rest) k =
      if r.1 == k then some r.2 else lookupSummary rest k := by
  cases h : r.1 == k <;> simp [lookupSummary, List.find?_cons, h]

/-- A fingerprint that looks up to nothing matches no row. -/
theorem any_eq_false_of_lookup_none {store : Store} {k : String}
    (h : lookupSummary store k = none) :
    store.any (fun r => r.1 == k) = false := by
  induction store with
  | nil => rfl
  | cons r rest ih =>
    rw [lookupSummary_cons] at h
    cases hr : r.1 == k
    · rw [hr, if_neg (by simp)] at h
      simp [hr, ih h]
    · rw [hr, if_pos rfl] at h
      exact absurd h (by simp)

/-- A fingerprint that looks up to nothing is not among the keys. -/
theorem not_mem_keys_of_lookup_none {store : Store} {k : String}
    (h : lookupSummary store k = none) :
    k ∉ store.map Prod.fst := by
  induction store with
  | nil => simp
  | cons r rest ih =>
    rw [lookupSummary_cons] at h
    cases hr : r.1 == k
    · rw [hr, if_neg (by simp)] at h
      simpa [Ne.symm (by simpa using hr)] using ih h
    · rw [hr, if_pos rfl] at h
      exact absurd h (by simp)

/-- After appending a row for an absent fingerprint, the lookup finds it. -/
theorem lookup_append_self {store : Store} {k v : String}
    (h : lookupSummary store k = none) :
    lookupSummary (store ++ [(k, v)]) k = some v := by
  induction store with
  | nil => simp [lookupSummary, List.find?_cons]
  | cons r rest ih =>
    rw [lookupSummary_cons] at h
    rw [List.cons_append, lookupSummary_cons]
    cases hr : r.1 == k
    · rw [hr, if_neg (by simp)] at h
      simp [ih h]
    · rw [hr, if_pos rfl] at h
      exact absurd h (by simp)

/-- Unfolding of the row count on a nonempty table. -/
theorem countKey_cons (r : String × String) (rest : Store) (k : String) :
    countKey (r :: rest) k = (if r.1 == k then 1 else 0) + countKey rest k := by
  cases h : r.1 == k
  · simp [countKey, List.filter_cons, h]
  · simp [countKey, List.filter_cons, h]
    omega

/-- Row counts add up across concatenation. -/
theorem countKey_append (s t : Store) (k : String) :
    countKey (s ++ t) k = countKey s k + countKey t k := by
  simp [countKey, List.filter_append]

/-- An absent fingerprint has zero rows. -/
theorem countKey_eq_zero_of_lookup_none {store : Store} {k : String}
    (h : lookupSummary store k = none) :
    countKey store k = 0 := by
  induction store with
  | nil => rfl
  | cons r rest ih =>
    rw [lookupSummary_cons] at h
    rw [countKey_cons]
    cases hr : r.1 == k
    · rw [hr, if_neg (by simp)] at h
      simp [hr, ih h]
    · rw [hr, if_pos rfl] at h
      exact absurd h (by simp)

/-- A fingerprint absent from the key list has zero rows. -/
theorem countKey_eq_zero_of_not_mem {store : Store} {k : String}
    (h : k ∉ store.map Prod.fst) :
    countKey store k = 0 := by
  induction store with
  | nil => rfl
  | cons r rest ih =>
    simp only [List.map_cons, List.mem_cons, not_or] at h
    rw [countKey_cons, if_neg (by simpa using Ne.symm h.1), ih h.2]

/-- With distinct keys, a fingerprint that looks up to a summary has
exactly one row. -/
theorem countKey_eq_one_of_lookup_some {store : Store} {k v : String}
    (hu : (store.map Prod.fst).Nodup) (h : lookupSummary store k = some v) :
    countKey store k = 1 := by
  induction store with
  | nil => simp [lookupSummary] at h
  | cons r rest ih =>
    rw [lookupSummary_cons] at h
    rw [countKey_cons]
    simp only [List.map_cons, List.nodup_cons] at hu
    cases hr : r.1 == k
    · rw [hr, if_neg (by simp)] at h
      simp [hr, ih hu.2 h]
    · have hk : r.1 = k := by simpa using hr
      have : countKey rest k = 0 :=
        countKey_eq_zero_of_not_mem (by simpa [hk] using hu.1)
      simp [hr, this]

/-! ### Path lemmas for `upload_file` -/

/-- Rejection path: an empty filename or a filename without the `.pdf`
suffix re-renders the form with the fixed message; the extractor is not
invoked, no request is sent, and the table is untouched. -/
theorem upload_file_reject (api : ChatRequest → ApiOutcome) (file : UploadedFile)
    (store : Store)
    (hc : (file.filename == "" || !(List.isSuffixOf ".pdf".data file.filename.data)) = true) :
    upload_file api file store =
      { response := .uploadForm (some "Please ensure that the uploaded file is in PDF format."),
        store := store, extractorCalled := false, requests := [] } := by
  simp [upload_file, hc]

/-- Extraction-failure path: whatever the extractor's own exception says,
the user sees the fixed wrapped message and the table is untouched. -/
theorem upload_file_extract_error (api : ChatRequest → ApiOutcome) (file : UploadedFile)
    (store : Store) (d : String)
    (hc : (file.filename == "" || !(List.isSuffixOf ".pdf".data file.filename.data)) = false)
    (he : file.extractResult = .error d) :
    upload_file api file store =
      { response := .uploadForm (some "An error occurred while reading the PDF."),
        store := store, extractorCalled := true, requests := [] } := by
  simp [upload_file, hc, extract_text_from_pdf, he, PyError.str]

/-- Cache-hit path: the stored summary is rendered, no request is sent,
and the table is untouched. -/
theorem upload_file_hit (api : ChatRequest → ApiOutcome) (file : UploadedFile)
    (store : Store) (t s0 : String)
    (hc : (file.filename == "" || !(List.isSuffixOf ".pdf".data file.filename.data)) = false)
    (he : file.extractResult = .ok t)
    (hl : lookupSummary store (fingerprint t) = some s0) :
    upload_file api file store =
      { response := .summaryPage s0, store := store,
        extractorCalled := true, requests := [] } := by
  simp [upload_file, hc, extract_text_from_pdf, he, retrieve_summary,
    retrieve_summary_at, retrieve_summary_body, hl, handle_errors]

/-- Cache-miss path with a successful remote call: exactly one request is
sent and one row is appended. -/
theorem upload_file_miss_ok (api : ChatRequest → ApiOutcome) (file : UploadedFile)
    (store : Store) (t s : String)
    (hc : (file.filename == "" || !(List.isSuffixOf ".pdf".data file.filename.data)) = false)
    (he : file.extractResult = .ok t)
    (hl : lookupSummary store (fingerprint t) = none)
    (ha : api (mkRequest t) = .ok s) :
    upload_file api file store =
      { response := .summaryPage s, store := store ++ [(fingerprint t, s)],
        extractorCalled := true, requests := [mkRequest t] } := by
  have hany := any_eq_false_of_lookup_none hl
  simp [upload_file, hc, extract_text_from_pdf, he, retrieve_summary,
    retrieve_summary_at, retrieve_summary_body, openai_summarization, hl, ha,
    insertSummary, hany, handle_errors]

/-- Cache-miss path with a remote timeout: the fixed "try again later"
message is rendered and the table is untouched. -/
theorem upload_file_miss_timeout (api : ChatRequest → ApiOutcome) (file : UploadedFile)
    (store : Store) (t d : String)
    (hc : (file.filename == "" || !(List.isSuffixOf ".pdf".data file.filename.data)) = false)
    (he : file.extractResult = .ok t)
    (hl : lookupSummary store (fingerprint t) = none)
    (ha : api (mkRequest t) = .timeout d) :
    upload_file api file store =
      { response := .uploadForm (some "The summarization process timed out. Please try again later."),
        store := store, extractorCalled := true, requests := [mkRequest t] } := by
  simp [upload_file, hc, extract_text_from_pdf, he, retrieve_summary,
    retrieve_summary_at, retrieve_summary_body, openai_summarization, hl, ha,
    handle_errors, PyError.str]

/-- Cache-miss path with any other remote failure: the fixed generic
message is rendered and the table is untouched. -/
theorem upload_file_miss_failure (api : ChatRequest → ApiOutcome) (file : UploadedFile)
    (store : Store) (t d : String)
    (hc : (file.filename == "" || !(List.isSuffixOf ".pdf".data file.filename.data)) = false)
    (he : file.extractResult = .ok t)
    (hl : lookupSummary store (fingerprint t) = none)
    (ha : api (mkRequest t) = .failure d) :
    upload_file api file store =
      { response := .uploadForm (some "An error occured while retrieving the summary."),
        store := store, extractorCalled := true, requests := [mkRequest t] } := by
  simp [upload_file, hc, extract_text_from_pdf, he, retrieve_summary,
    retrieve_summary_at, retrieve_summary_body, openai_summarization, hl, ha,
    handle_errors, PyError.str]

/-- The extractor is invoked exactly when the filename check passes; the
decision depends only on the filename, never on the file's content, the
remote oracle or the table. -/
theorem upload_file_extractorCalled (api : ChatRequest → ApiOutcome) (file : UploadedFile)
    (store : Store) :
    (upload_file api file store).extractorCalled =
      !(file.filename == "" || !(List.isSuffixOf ".pdf".data file.filename.data)) := by
  cases hc : (file.filename == "" || !(List.isSuffixOf ".pdf".data file.filename.data))
  · cases he : file.extractResult with
    | error d => rw [upload_file_extract_error api file store d hc he]; rfl
    | ok t =>
      cases hl : lookupSummary store (fingerprint t) with
      | some s0 => rw [upload_file_hit api file store t s0 hc he hl]; rfl
      | none =>
        cases ha : api (mkRequest t) with
        | ok s => rw [upload_file_miss_ok api file store t s hc he hl ha]; rfl
        | timeout d => rw [upload_file_miss_timeout api file store t d hc he hl ha]; rfl
        | failure d => rw [upload_file_miss_failure api file store t d hc he hl ha]; rfl
  · rw [upload_file_reject api file store hc]; rfl

/-! ### Fingerprint lemmas -/

/-- A big-endian rendering has exactly the requested number of bytes. -/
theorem toBE_length (k n : ℕ) : (toBE k n).length = k := by
  simp [toBE]

/-- Every byte of a big-endian rendering is below 256. -/
theorem toBE_lt {k n b : ℕ} (h : b ∈ toBE k n) : b < 256 := by
  simp only [toBE, List.mem_map] at h
  obtain ⟨i, -, rfl⟩ := h
  exact Nat.mod_lt _ (by norm_num)

/-- The SHA-256 digest has 32 bytes. -/
theorem sha256Bytes_length (m : List ℕ) : (sha256Bytes m).length = 32 := by
  simp [sha256Bytes, toBE_length]

/-- Every byte of the SHA-256 digest is below 256. -/
theorem sha256Bytes_lt {m : List ℕ} {b : ℕ} (h : b ∈ sha256Bytes m) : b < 256 := by
  simp only [sha256Bytes, List.mem_append] at h
  rcases h with ((((((h | h) | h) | h) | h) | h) | h) | h <;> exact toBE_lt h

/-- A value below 16 renders as a lowercase hexadecimal digit. -/
theorem hexChar_mem {n : ℕ} (h : n < 16) :
    hexChar n ∈ "0123456789abcdef".data := by
  interval_cases n <;> decide

/-- The hexadecimal rendering of a byte list is twice as long. -/
theorem hexdigest_length (bs : List ℕ) : (hexdigest bs).length = 2 * bs.length := by
  induction bs with
  | nil => rfl
  | cons b rest ih =>
    simp only [hexdigest, String.length, List.map_cons, List.flatten_cons,
      List.length_append, byteHex, List.length_cons, List.length_nil] at ih ⊢
    omega

/-- Every character of the hexadecimal rendering of bytes below 256 is a
lowercase hexadecimal digit. -/
theorem hexdigest_chars {bs : List ℕ} (hb : ∀ b ∈ bs, b < 256) :
    ∀ c ∈ (hexdigest bs).data, c ∈ "0123456789abcdef".data := by
  intro c hc
  simp only [hexdigest, List.mem_flatten, List.mem_map] at hc
  obtain ⟨l, ⟨b, hbmem, rfl⟩, hcl⟩ := hc
  have hblt : b < 256 := hb b hbmem
  simp only [byteHex, List.mem_cons, List.mem_singleton] at hcl
  rcases hcl with rfl | rfl | h
  · exact hexChar_mem (Nat.div_lt_of_lt_mul (by omega))
  · exact hexChar_mem (Nat.mod_lt _ (by norm_num))
  · exact absurd h (List.not_mem_nil c)

/-! ### Sanity: the embedded SHA-256 matches the standard test vectors -/

set_option maxRecDepth 10000 in
/-- FIPS 180-4 test vector: the fingerprint of the empty text is the
well-known SHA-256 digest of the empty message. -/
theorem fingerprint_test_vector_empty :
    fingerprint "" = "e3b0c44298fc1c149afbf4c8996fb92427ae41e4649b934ca495991b7852b855" := by
  decide

set_option maxRecDepth 10000 in
/-- FIPS 180-4 test vector: the fingerprint of `"abc"`. -/
theorem fingerprint_test_vector_abc :
    fingerprint "abc" = "ba7816bf8f01cfea414140de5dae2223b00361a396177a9cb410ff61f20015ad" := by
  decide

/-- The filename check of app.py line 125 passes for a nonempty filename
ending in `.pdf`. -/
theorem pdf_cond_false {file : UploadedFile} (h1 : file.filename ≠ "")
    (h2 : List.isSuffixOf ".pdf".data file.filename.data = true) :
    (file.filename == "" || !(List.isSuffixOf ".pdf".data file.filename.data)) = false := by
  simp only [h2, Bool.not_true, Bool.or_false]
  exact beq_eq_false_iff_ne.mpr h1

/-! ### The claims -/

/-- C1: For every fingerprint already present in the Summary Store,
`retrieve_summary` returns the stored summary, leaves the store untouched
and sends no request to the Summarizer Client. -/
theorem cache_hit_short_circuit (api : ChatRequest → ApiOutcome)
    (text pdf_hash s : String) (store : Store)
    (hs : lookupSummary store pdf_hash = some s) :
    retrieve_summary api text pdf_hash store = (.ok s, store, []) := by
  simp [retrieve_summary, retrieve_summary_at, retrieve_summary_body, hs, handle_errors]

/-- Witness for C1 at a one-row store. -/
theorem cache_hit_short_circuit_witness :
    lookupSummary [("k", "v")] "k" = some "v" ∧
    retrieve_summary (fun _ => ApiOutcome.ok "w") "text" "k" [("k", "v")]
      = (.ok "v", [("k", "v")], []) :=
  ⟨by decide, cache_hit_short_circuit (fun _ => ApiOutcome.ok "w") "text" "k" "v"
    [("k", "v")] (by decide)⟩

/-- C2 counterexample: in the race the claim describes — the lookup saw an
empty table, a concurrent request then committed `("h1", "winner")`, and
our insert hits the uniqueness constraint — `retrieve_summary` raises the
fixed database error instead of re-reading and returning the committed
summary `"winner"`. -/
theorem race_insert_claim_counterexample :
    (retrieve_summary_at (fun _ => ApiOutcome.ok "fresh") "T" "h1" [] [("h1", "winner")]).1
        = .error (.sqliteError "An error occurred with the database.") ∧
    ¬ (retrieve_summary_at (fun _ => ApiOutcome.ok "fresh") "T" "h1" [] [("h1", "winner")]).1
        = .ok "winner" := by
  constructor
  · rfl
  · intro h
    exact Except.noConfusion h

/-- C2 (amended): on a cache miss, if the insert of the freshly generated
summary fails because a record for that fingerprint already exists (a
concurrent race), the handler catches the `sqlite3.Error` and raises a
database error carrying the fixed message "An error occurred with the
database." — it does not re-lookup, and the already-committed summary is
not returned. -/
theorem race_insert_errors_to_user (api : ChatRequest → ApiOutcome)
    (text pdf_hash s : String) (storeL storeI : Store)
    (hl : lookupSummary storeL pdf_hash = none)
    (ha : api (mkRequest text) = .ok s)
    (hc : storeI.any (fun r => r.1 == pdf_hash) = true) :
    retrieve_summary_at api text pdf_hash storeL storeI =
      (.error (.sqliteError "An error occurred with the database."),
        storeI, [mkRequest text]) := by
  simp [retrieve_summary_at, retrieve_summary_body, openai_summarization, hl, ha,
    insertSummary, hc, handle_errors]

/-- Witness for the amended C2. -/
theorem race_insert_errors_to_user_witness :
    lookupSummary [] "h1" = none ∧
    (fun _ => ApiOutcome.ok "fresh") (mkRequest "T") = ApiOutcome.ok "fresh" ∧
    ([("h1", "winner")] : Store).any (fun r => r.1 == "h1") = true ∧
    retrieve_summary_at (fun _ => ApiOutcome.ok "fresh") "T" "h1" [] [("h1", "winner")] =
      (.error (.sqliteError "An error occurred with the database."),
        [("h1", "winner")], [mkRequest "T"]) :=
  ⟨rfl, rfl, by decide,
    race_insert_errors_to_user (fun _ => ApiOutcome.ok "fresh") "T" "h1" "fresh"
      [] [("h1", "winner")] rfl rfl (by decide)⟩

/-- C4: the fingerprint is a pure function (equal texts yield equal
digests), and for every text — the empty string included — it yields a
64-character string (256 bits rendered in hexadecimal) whose characters
are all lowercase hexadecimal digits.  It is computed from the extracted
text handed to it, not from the original file bytes (`upload_file` above
applies it to the extractor's output only). -/
theorem fingerprint_deterministic_hex (t₁ t₂ : String) (h : t₁ = t₂) :
    fingerprint t₁ = fingerprint t₂ ∧ (fingerprint t₁).length = 64 ∧
    ∀ c ∈ (fingerprint t₁).data, c ∈ "0123456789abcdef".data := by
  refine ⟨congrArg fingerprint h, ?_, ?_⟩
  · rw [fingerprint, hexdigest_length, sha256Bytes_length]
  · exact hexdigest_chars (fun b hb => sha256Bytes_lt hb)

/-- Witness for C4 at the empty string. -/
theorem fingerprint_deterministic_hex_witness :
    ("" : String) = "" ∧
    (fingerprint "" = fingerprint "" ∧ (fingerprint "").length = 64 ∧
      ∀ c ∈ (fingerprint "").data, c ∈ "0123456789abcdef".data) :=
  ⟨rfl, fingerprint_deterministic_hex "" "" rfl⟩

/-- C5: an uploaded file whose filename is empty or does not end in `.pdf`
is rejected with the fixed user-facing message; the extractor is never
invoked, no summarization request is sent, and the store is unchanged. -/
theorem non_pdf_rejected (api : ChatRequest → ApiOutcome) (file : UploadedFile)
    (store : Store)
    (h : file.filename = "" ∨ List.isSuffixOf ".pdf".data file.filename.data = false) :
    upload_file api file store =
      { response := .uploadForm (some "Please ensure that the uploaded file is in PDF format."),
        store := store, extractorCalled := false, requests := [] } := by
  apply upload_file_reject
  rcases h with h | h <;> simp [h]

/-- Witness for C5 at a `.txt` upload. -/
theorem non_pdf_rejected_witness :
    (List.isSuffixOf ".pdf".data "notes.txt".data = false) ∧
    upload_file (fun _ => ApiOutcome.ok "S") ⟨"notes.txt", Except.ok "T"⟩ [] =
      { response := .uploadForm (some "Please ensure that the uploaded file is in PDF format."),
        store := [], extractorCalled := false, requests := [] } :=
  ⟨by decide, non_pdf_rejected (fun _ => ApiOutcome.ok "S") ⟨"notes.txt", Except.ok "T"⟩ []
    (Or.inr (by decide))⟩

/-- C3: uploading the same PDF content twice sequentially (same extracted
text, hence same fingerprint) leaves exactly one row for that fingerprint
in the store, and at most one request is sent to the Summarizer Client
across both uploads. -/
theorem idempotent_caching (api : ChatRequest → ApiOutcome) (file : UploadedFile)
    (t s : String) (store : Store)
    (hf : file.filename ≠ "" ∧ List.isSuffixOf ".pdf".data file.filename.data = true)
    (he : file.extractResult = .ok t)
    (ha : api (mkRequest t) = .ok s)
    (hu : (store.map Prod.fst).Nodup) :
    countKey (upload_file api file ((upload_file api file store).store)).store
        (fingerprint t) = 1 ∧
    ((upload_file api file store).requests ++
        (upload_file api file ((upload_file api file store).store)).requests).length ≤ 1 := by
  have hc := pdf_cond_false hf.1 hf.2
  cases hl : lookupSummary store (fingerprint t) with
  | none =>
    have h1 := upload_file_miss_ok api file store t s hc he hl ha
    have h2 := upload_file_hit api file (store ++ [(fingerprint t, s)]) t s hc he
      (lookup_append_self hl)
    simp only [h1, h2]
    constructor
    · rw [countKey_append, countKey_eq_zero_of_lookup_none hl]
      simp [countKey, List.filter_cons]
    · simp
  | some s0 =>
    have h1 := upload_file_hit api file store t s0 hc he hl
    simp only [h1]
    constructor
    · exact countKey_eq_one_of_lookup_some hu hl
    · simp

/-- Witness for C3: a first-time upload into the empty store. -/
theorem idempotent_caching_witness :
    (("a.pdf" : String) ≠ "" ∧ List.isSuffixOf ".pdf".data "a.pdf".data = true) ∧
    ((([] : Store).map Prod.fst).Nodup) ∧
    (countKey (upload_file (fun _ => ApiOutcome.ok "S") ⟨"a.pdf", Except.ok "T"⟩
        ((upload_file (fun _ => ApiOutcome.ok "S") ⟨"a.pdf", Except.ok "T"⟩ []).store)).store
        (fingerprint "T") = 1 ∧
      ((upload_file (fun _ => ApiOutcome.ok "S") ⟨"a.pdf", Except.ok "T"⟩ []).requests ++
        (upload_file (fun _ => ApiOutcome.ok "S") ⟨"a.pdf", Except.ok "T"⟩
          ((upload_file (fun _ => ApiOutcome.ok "S") ⟨"a.pdf", Except.ok "T"⟩ []).store)).requests).length
        ≤ 1) :=
  ⟨⟨by decide, by decide⟩, by simp,
    idempotent_caching (fun _ => ApiOutcome.ok "S") ⟨"a.pdf", Except.ok "T"⟩ "T" "S" []
      ⟨by decide, by decide⟩ rfl rfl (by simp)⟩

/-- C6: when the extractor cannot parse the byte stream, whatever the
underlying library exception's detail is, the user sees only the fixed
wrapped message "An error occurred while reading the PDF." (so no raw
third-party exception escapes the boundary), and the store gains no row. -/
theorem extraction_failure_isolated (api : ChatRequest → ApiOutcome)
    (file : UploadedFile) (store : Store) (d : String)
    (hf : file.filename ≠ "" ∧ List.isSuffixOf ".pdf".data file.filename.data = true)
    (he : file.extractResult = .error d) :
    upload_file api file store =
      { response := .uploadForm (some "An error occurred while reading the PDF."),
        store := store, extractorCalled := true, requests := [] } :=
  upload_file_extract_error api file store d (pdf_cond_false hf.1 hf.2) he

/-- Witness for C6 at a corrupt `.pdf` upload. -/
theorem extraction_failure_isolated_witness :
    (("bad.pdf" : String) ≠ "" ∧ List.isSuffixOf ".pdf".data "bad.pdf".data = true) ∧
    upload_file (fun _ => ApiOutcome.ok "S")
        ⟨"bad.pdf", Except.error "EOF marker not found"⟩ [] =
      { response := .uploadForm (some "An error occurred while reading the PDF."),
        store := [], extractorCalled := true, requests := [] } :=
  ⟨⟨by decide, by decide⟩,
    extraction_failure_isolated (fun _ => ApiOutcome.ok "S")
      ⟨"bad.pdf", Except.error "EOF marker not found"⟩ [] "EOF marker not found"
      ⟨by decide, by decide⟩ rfl⟩

/-- C7: the request carries the fixed 30-unit timeout; if the remote call
times out the user sees exactly the fixed "try again later" message, and on
any other remote failure exactly the fixed generic message — in both cases
the internal detail string `d` does not appear in what the user sees, and
the store is unchanged. -/
theorem summarizer_failure_mapping (api : ChatRequest → ApiOutcome)
    (file : UploadedFile) (store : Store) (t d : String)
    (hf : file.filename ≠ "" ∧ List.isSuffixOf ".pdf".data file.filename.data = true)
    (he : file.extractResult = .ok t)
    (hl : lookupSummary store (fingerprint t) = none) :
    (mkRequest t).timeout = 30 ∧
    (api (mkRequest t) = .timeout d →
      upload_file api file store =
        { response := .uploadForm (some "The summarization process timed out. Please try again later."),
          store := store, extractorCalled := true, requests := [mkRequest t] }) ∧
    (api (mkRequest t) = .failure d →
      upload_file api file store =
        { response := .uploadForm (some "An error occured while retrieving the summary."),
          store := store, extractorCalled := true, requests := [mkRequest t] }) := by
  have hc := pdf_cond_false hf.1 hf.2
  exact ⟨rfl,
    fun ha => upload_file_miss_timeout api file store t d hc he hl ha,
    fun ha => upload_file_miss_failure api file store t d hc he hl ha⟩

/-- Witness for C7 with a timing-out remote service. -/
theorem summarizer_failure_mapping_witness :
    (("a.pdf" : String) ≠ "" ∧ List.isSuffixOf ".pdf".data "a.pdf".data = true) ∧
    lookupSummary [] (fingerprint "T") = none ∧
    ((mkRequest "T").timeout = 30 ∧
      ((fun _ => ApiOutcome.timeout "Request timed out") (mkRequest "T")
          = ApiOutcome.timeout "Request timed out" →
        upload_file (fun _ => ApiOutcome.timeout "Request timed out")
            ⟨"a.pdf", Except.ok "T"⟩ [] =
          { response := .uploadForm (some "The summarization process timed out. Please try again later."),
            store := [], extractorCalled := true, requests := [mkRequest "T"] }) ∧
      ((fun _ => ApiOutcome.timeout "Request timed out") (mkRequest "T")
          = ApiOutcome.failure "Request timed out" →
        upload_file (fun _ => ApiOutcome.timeout "Request timed out")
            ⟨"a.pdf", Except.ok "T"⟩ [] =
          { response := .uploadForm (some "An error occured while retrieving the summary."),
            store := [], extractorCalled := true, requests := [mkRequest "T"] })) :=
  ⟨⟨by decide, by decide⟩, rfl,
    summarizer_failure_mapping (fun _ => ApiOutcome.timeout "Request timed out")
      ⟨"a.pdf", Except.ok "T"⟩ [] "T" "Request timed out" ⟨by decide, by decide⟩ rfl rfl⟩

/-- C8: one request preserves the store invariants — starting from a table
with pairwise-distinct fingerprints, after any `upload_file` request the
fingerprints are still pairwise distinct, every existing row is still
present unchanged (no update, no deletion), and the whole transition is
either the identity or the one-way appearance of one previously absent
`(fingerprint, summary)` row. -/
theorem store_invariants_preserved (api : ChatRequest → ApiOutcome)
    (file : UploadedFile) (store : Store)
    (hu : (store.map Prod.fst).Nodup) :
    (((upload_file api file store).store.map Prod.fst).Nodup) ∧
    (∀ p ∈ store, p ∈ (upload_file api file store).store) ∧
    ((upload_file api file store).store = store ∨
      ∃ k v, (upload_file api file store).store = store ++ [(k, v)] ∧
        lookupSummary store k = none) := by
  have htrans : (upload_file api file store).store = store ∨
      ∃ k v, (upload_file api file store).store = store ++ [(k, v)] ∧
        lookupSummary store k = none := by
    cases hc : (file.filename == "" || !(List.isSuffixOf ".pdf".data file.filename.data))
    · cases he : file.extractResult with
      | error d => rw [upload_file_extract_error api file store d hc he]; left; rfl
      | ok t =>
        cases hl : lookupSummary store (fingerprint t) with
        | some s0 => rw [upload_file_hit api file store t s0 hc he hl]; left; rfl
        | none =>
          cases ha : api (mkRequest t) with
          | ok s =>
            rw [upload_file_miss_ok api file store t s hc he hl ha]
            exact Or.inr ⟨fingerprint t, s, rfl, hl⟩
          | timeout d =>
            rw [upload_file_miss_timeout api file store t d hc he hl ha]; left; rfl
          | failure d =>
            rw [upload_file_miss_failure api file store t d hc he hl ha]; left; rfl
    · rw [upload_file_reject api file store hc]; left; rfl
  refine ⟨?_, ?_, htrans⟩
  · rcases htrans with h | ⟨k, v, h, hk⟩
    · rw [h]; exact hu
    · rw [h]
      have hnot := not_mem_keys_of_lookup_none hk
      simp [List.nodup_append, hu, hnot]
  · intro p hp
    rcases htrans with h | ⟨k, v, h, -⟩
    · rw [h]; exact hp
    · rw [h]; exact List.mem_append_left _ hp

/-- Witness for C8: a first-time upload into the empty store. -/
theorem store_invariants_preserved_witness :
    ((([] : Store).map Prod.fst).Nodup) ∧
    ((((upload_file (fun _ => ApiOutcome.ok "S") ⟨"a.pdf", Except.ok "T"⟩ []).store.map
        Prod.fst).Nodup) ∧
      (∀ p ∈ ([] : Store),
        p ∈ (upload_file (fun _ => ApiOutcome.ok "S") ⟨"a.pdf", Except.ok "T"⟩ []).store) ∧
      ((upload_file (fun _ => ApiOutcome.ok "S") ⟨"a.pdf", Except.ok "T"⟩ []).store = [] ∨
        ∃ k v,
          (upload_file (fun _ => ApiOutcome.ok "S") ⟨"a.pdf", Except.ok "T"⟩ []).store
              = [] ++ [(k, v)] ∧
            lookupSummary [] k = none)) :=
  ⟨by simp,
    store_invariants_preserved (fun _ => ApiOutcome.ok "S") ⟨"a.pdf", Except.ok "T"⟩ []
      (by simp)⟩

/-- C9: every call of `openai_summarization` sends exactly one request (one
attempt, no retries, whatever the outcome), and that request is the fixed
two-turn exchange — the summarization-persona system turn and the user
turn holding the fixed prefix followed by the full text — with temperature
0.5, no stop sequence, the 30-unit timeout, and the fixed model name. -/
theorem summarizer_request_shape (api : ChatRequest → ApiOutcome) (text : String) :
    (openai_summarization api text).2 = [mkRequest text] ∧
    (mkRequest text).model = "gpt-3.5-turbo" ∧
    (mkRequest text).messages =
      [ { role := "system",
          content := "You are a helpful assistant that provides summaries." },
        { role := "user",
          content := "Provide a detailed summary of the following text:\n" ++ text } ] ∧
    (mkRequest text).temperature = 0.5 ∧
    (mkRequest text).stop = none ∧
    (mkRequest text).timeout = 30 := by
  refine ⟨?_, rfl, rfl, rfl, rfl, rfl⟩
  cases h : api (mkRequest text) <;> simp [openai_summarization, h]

/-- C10: the PDF-type check is an exact, case-sensitive suffix match on the
declared filename: the extractor runs exactly when the filename is nonempty
and ends in lowercase `.pdf`, and this decision is the same for every file
content, remote oracle and store (the content is never inspected); in
particular `doc.pdf` proceeds to extraction while `doc.PDF` is rejected as
non-PDF. -/
theorem pdf_check_case_sensitive :
    (∀ (api : ChatRequest → ApiOutcome) (file : UploadedFile) (store : Store),
      (upload_file api file store).extractorCalled =
        !(file.filename == "" || !(List.isSuffixOf ".pdf".data file.filename.data))) ∧
    (∀ (api : ChatRequest → ApiOutcome) (ex : Except String String) (store : Store),
      (upload_file api ⟨"doc.pdf", ex⟩ store).extractorCalled = true) ∧
    (∀ (api : ChatRequest → ApiOutcome) (ex : Except String String) (store : Store),
      (upload_file api ⟨"doc.PDF", ex⟩ store).response
          = .uploadForm (some "Please ensure that the uploaded file is in PDF format.") ∧
        (upload_file api ⟨"doc.PDF", ex⟩ store).extractorCalled = false) := by
  refine ⟨upload_file_extractorCalled, ?_, ?_⟩
  · intro api ex store
    rw [upload_file_extractorCalled]
    show (!(("doc.pdf" : String) == ""
      || !(List.isSuffixOf ".pdf".data ("doc.pdf" : String).data))) = true
    decide
  · intro api ex store
    have hc : (("doc.PDF" : String) == ""
        || !(List.isSuffixOf ".pdf".data ("doc.PDF" : String).data)) = true := by decide
    rw [upload_file_reject api ⟨"doc.PDF", ex⟩ store hc]
    exact ⟨rfl, rfl⟩
